import Mathlib

/-!
Shallow embedding of the liteorm reflection-driven SQL generation engine
(src/sql.go and src/reflection.go of lashbits/liteorm), together with
theorems checking the natural-language specification against it.

Modelling conventions:
* A Go struct type is a `StructType`: its bare name plus its fields in
  declaration order.  A `StructField` carries the field name, the
  `reflect.Kind`-level shape of its type (`Kind`), and the values of its
  `pgsql` and `pglen` struct tags (`""` when the tag is absent, exactly as
  `reflect.StructTag.Get` reports an absent tag).
* Go `int`/`int64` values are modelled as unbounded `Int`.  The only integer
  arithmetic the claims exercise is placeholder numbering, which increments
  a counter once per struct field, far below any 64-bit overflow.
* `strings.ToLower` is modelled for ASCII input (`goToLower`); all
  identifiers involved are ASCII.
* Fallible Go functions returning `(T, error)` become `Except String T`;
  error values are compared by their message text, which the source builds
  with `errors.New`/`fmt.Errorf`.  `errors.Wrap(err, msg)` renders as
  `msg ++ ": " ++ err`.
* Operations that can panic under Go's `reflect` package (`Value.SetInt`,
  `Value.Int` on a non-integer value) return an `Outcome`, which separates
  ordinary returned errors (`.err`) from runtime panics (`.panic`).
* The database driver is out of scope; the facade methods (`Insert`,
  `UpdateOne`) take the driver round trip as an explicit function argument
  and are otherwise translated statement by statement from the source.
-/

namespace Liteorm

/-- The `reflect.Kind`-level shape of a Go field type, restricted to the
constructors the source discriminates on.  Signed integer kinds are listed
individually because `reflect.Value.SetInt` accepts exactly those; every
other primitive kind is carried as `other` with its Go kind string
(e.g. `"bool"`, `"float64"`, `"uint"`). -/
inductive Kind where
  | int
  | int8
  | int16
  | int32
  | int64
  | uint8
  | str
  | struct_ (pkgPath : String) (tyName : String)
  | slice (elem : Kind)
  | other (goKindString : String)
deriving DecidableEq

/-- The string `reflect.Kind.String()` produces for a kind, as used in the
error messages of `mapColumnType`. -/
def kindName : Kind → String
  | Kind.int => "int"
  | Kind.int8 => "int8"
  | Kind.int16 => "int16"
  | Kind.int32 => "int32"
  | Kind.int64 => "int64"
  | Kind.uint8 => "uint8"
  | Kind.str => "string"
  | Kind.struct_ _ _ => "struct"
  | Kind.slice _ => "slice"
  | Kind.other s => s

/-- One field of a Go struct type: `reflect.StructField` restricted to the
attributes the source reads (name, type kind, `pgsql` tag, `pglen` tag).
A tag that is absent is the empty string, as in `StructTag.Get`. -/
structure StructField where
  name : String
  kind : Kind
  pgsqlTag : String
  pglenTag : String
deriving DecidableEq

/-- A Go struct type: bare type name and fields in declaration order. -/
structure StructType where
  name : String
  fields : List StructField
deriving DecidableEq

/-- `strings.ToLower` for ASCII strings: each byte in `A`..`Z` is shifted to
its lower-case counterpart.  (Go lower-cases full Unicode; every identifier
appearing here is ASCII, where the two agree.) -/
def goToLower (s : String) : String :=
  String.mk (s.data.map fun c => if 'A' ≤ c ∧ c ≤ 'Z' then Char.ofNat (c.toNat + 32) else c)

/-- `strconv.Atoi`: an optional sign followed by at least one ASCII digit,
rejecting anything else and any value outside the 64-bit signed range
(`strconv.Atoi` on a 64-bit platform is `ParseInt(s, 10, 64)`).
Returns `none` exactly when Go returns a non-nil error. -/
def goAtoi (s : String) : Option Int :=
  let signAndDigits : Int × List Char :=
    match s.data with
    | '+' :: rest => (1, rest)
    | '-' :: rest => (-1, rest)
    | cs => (1, cs)
  let sign := signAndDigits.1
  let digits := signAndDigits.2
  if digits.isEmpty then none
  else if digits.all Char.isDigit then
    let mag : Nat := digits.foldl (fun acc c => acc * 10 + (c.toNat - '0'.toNat)) 0
    let v : Int := sign * mag
    if -(2 ^ 63) ≤ v ∧ v < 2 ^ 63 then some v else none
  else none

/-- `idColumnType` (src/reflection.go): the PostgreSQL column type for ID
columns. -/
def idColumnType : String := "bigserial"

/-- `getLengthTag` (src/reflection.go): the integer associated with the
`pglen` tag of a field.  Empty (absent) tag and unparsable tag are the two
error cases; there is no sign or positivity check. -/
def getLengthTag (field : StructField) : Except String Int :=
  let stag := field.pglenTag
  if stag = "" then
    Except.error ("len tag not present for field " ++ field.name)
  else
    match goAtoi stag with
    | none => Except.error ("len tag of field " ++ field.name ++ " cannot be converted to int")
    | some itag => Except.ok itag

/-- `mapColumnType` (src/reflection.go): maps a struct field to a PostgreSQL
column type, switching on the field type's kind. -/
def mapColumnType (field : StructField) : Except String String :=
  match field.kind with
  | Kind.int => Except.ok "int"
  | Kind.int64 => Except.ok "bigint"
  | Kind.str =>
    match getLengthTag field with
    | Except.error e => Except.error e
    | Except.ok lenTag => Except.ok ("varchar(" ++ toString lenTag ++ ")")
  | Kind.struct_ pkgPath tyName =>
    if pkgPath ++ "." ++ tyName = "time.Time" then Except.ok "timestamp"
    else Except.error ("unsupported struct type - " ++ (pkgPath ++ "." ++ tyName))
  | Kind.slice elemKind =>
    match elemKind with
    | Kind.uint8 => Except.ok "bytea"
    | e => Except.error ("unsupported slice kind - " ++ kindName e)
  | k => Except.error ("unsupported field kind - " ++ kindName k)

/-- `BuildTableName` (src/reflection.go): lower-case the bare type name and
append a trailing "s" (`fmt.Sprintf("%ss", strings.ToLower(t.Name()))`). -/
def BuildTableName (t : StructType) : String :=
  goToLower t.name ++ "s"

/-- The column type chosen by the loop body of `buildCreateStatement`
(src/sql.go): `columnName := strings.ToLower(field.Name)` and then
`if columnName == "id"` the fixed `idColumnType`, otherwise
`mapColumnType(field)`. -/
def createColumnType (field : StructField) : Except String String :=
  if goToLower field.name = "id" then Except.ok idColumnType
  else mapColumnType field

/-- One column clause of the create statement:
`fmt.Sprintf("%s %s %s", columnName, columnType, pgsqlTag)` where
`pgsqlTag := field.Tag.Get("pgsql")`. -/
def createColumnClause (field : StructField) : Except String String :=
  match createColumnType field with
  | Except.error e => Except.error e
  | Except.ok columnType =>
    Except.ok (goToLower field.name ++ " " ++ columnType ++ " " ++ field.pgsqlTag)

/-- The loop of `buildCreateStatement`: clauses are concatenated left to
right, a comma is appended after a clause exactly when the field is not the
last one (`if i+1 < argt.NumField()`), and the first failing field aborts
the whole build. -/
def createAux : List StructField → Except String String
  | [] => Except.ok ""
  | f :: rest =>
    match createColumnClause f with
    | Except.error e => Except.error e
    | Except.ok clause =>
      match createAux rest with
      | Except.error e => Except.error e
      | Except.ok restBody =>
        Except.ok (clause ++ (if rest.isEmpty then "" else ",") ++ restBody)

/-- `buildCreateStatement` (src/sql.go). -/
def buildCreateStatement (argt : StructType) : Except String String :=
  match createAux argt.fields with
  | Except.error e => Except.error e
  | Except.ok body =>
    Except.ok ("create table " ++ BuildTableName argt ++ " (" ++ body ++ ");")

/-- The loop of `buildInsertStatement` (src/sql.go), producing the column
list and the placeholder list.  A field named exactly `"ID"` is skipped by
`continue` (contributing neither text nor a comma and not advancing the
placeholder counter); after any other field, a comma is appended to both
lists exactly when the field is not the last declared one
(`if i+1 < argt.NumField()`, i.e. when the remaining field list is
nonempty). -/
def insertAux : List StructField → Int → String × String
  | [], _ => ("", "")
  | f :: rest, nextIdx =>
    if f.name = "ID" then insertAux rest nextIdx
    else
      let pr := insertAux rest (nextIdx + 1)
      let comma := if rest.isEmpty then "" else ","
      (goToLower f.name ++ comma ++ pr.1,
       "$" ++ toString nextIdx ++ comma ++ pr.2)

/-- `buildInsertStatement` (src/sql.go); the placeholder counter starts
at 1. -/
def buildInsertStatement (argt : StructType) : String :=
  let pr := insertAux argt.fields 1
  "insert into " ++ BuildTableName argt ++ " (" ++ pr.1 ++ ") values (" ++
    pr.2 ++ ") returning id;"

/-- The loop of `buildUpdateStatement` (src/sql.go): the SET list is built
from `fmt.Sprintf("%s = $%d", field.Name, nextIdx)` — note the raw
`field.Name`, not the lower-cased column name — skipping the field named
exactly `"ID"`, with the same trailing-comma condition as the insert loop,
and returns the final value of `nextIdx`. -/
def updateSetAux : List StructField → Int → String × Int
  | [], nextIdx => ("", nextIdx)
  | f :: rest, nextIdx =>
    if f.name = "ID" then updateSetAux rest nextIdx
    else
      let pr := updateSetAux rest (nextIdx + 1)
      let comma := if rest.isEmpty then "" else ","
      (f.name ++ " = $" ++ toString nextIdx ++ comma ++ pr.1, pr.2)

/-- `buildUpdateStatement` (src/sql.go). -/
def buildUpdateStatement (argt : StructType) (clauses : String) (nextIdx : Int) :
    String × Int :=
  let pr := updateSetAux argt.fields nextIdx
  ("update " ++ BuildTableName argt ++ " set " ++ pr.1 ++ " " ++ clauses ++ ";", pr.2)

/-! ### Specification-side shapes of the generated statements

The following definitions express the clean comma-separated lists the spec
describes (column names / placeholders / SET clauses of the non-identity
fields in declaration order, joined by single commas with no trailing
comma).  They are the yardstick the builder outputs are compared against. -/

/-- Join a list of strings with a separator, with no leading or trailing
separator. -/
def joinSep (sep : String) : List String → String
  | [] => ""
  | [a] => a
  | a :: b :: rest => a ++ sep ++ joinSep sep (b :: rest)

/-- The non-identity fields: every field whose name is not exactly `"ID"`,
in declaration order. -/
def nonID : List StructField → List StructField
  | [] => []
  | f :: rest => if f.name = "ID" then nonID rest else f :: nonID rest

/-- Whether the last declared field is named exactly `"ID"`. -/
def lastIsID : List StructField → Bool
  | [] => false
  | [f] => f.name == "ID"
  | _ :: f :: rest => lastIsID (f :: rest)

/-- Whether some field is not named `"ID"`. -/
def hasNonID : List StructField → Bool
  | [] => false
  | f :: rest => (f.name != "ID") || hasNonID rest

/-- The stray trailing comma the builder loops leave behind: present exactly
when the last declared field is named `"ID"` and at least one other field
exists. -/
def trailingComma (fields : List StructField) : String :=
  if lastIsID fields && hasNonID fields then "," else ""

/-- Lower-cased names of the non-identity fields, in declaration order. -/
def insertColsList (fields : List StructField) : List String :=
  (nonID fields).map (fun f => goToLower f.name)

/-- The clean insert column list. -/
def insertColsSpec (fields : List StructField) : String :=
  joinSep "," (insertColsList fields)

/-- Placeholders `$k, $k+1, …` — `n` of them starting at `k`. -/
def placeholdersFrom : Int → Nat → List String
  | _, 0 => []
  | k, n + 1 => ("$" ++ toString k) :: placeholdersFrom (k + 1) n

/-- The clean insert placeholder list starting at `k`. -/
def insertValsSpec (k : Int) (fields : List StructField) : String :=
  joinSep "," (placeholdersFrom k (nonID fields).length)

/-- SET clauses `name = $k, name = $k+1, …` for a list of fields, keeping
the field names exactly as declared. -/
def setClauses : List StructField → Int → List String
  | [], _ => []
  | f :: rest, k => (f.name ++ " = $" ++ toString k) :: setClauses rest (k + 1)

/-- The clean update SET list starting at `k`. -/
def updateSetSpec (fields : List StructField) (k : Int) : String :=
  joinSep "," (setClauses (nonID fields) k)

/-- Whether `needle` occurs at the start of `hay` (character lists). -/
def begins : List Char → List Char → Bool
  | _, [] => true
  | [], _ :: _ => false
  | h :: hs, n :: ns => (h == n) && begins hs ns

/-- Whether `needle` occurs contiguously anywhere inside `hay`: the
executable substring test used to state whether an error message names a
given identifier. -/
def hasSeg : List Char → List Char → Bool
  | [], needle => needle.isEmpty
  | h :: t, needle => begins (h :: t) needle || hasSeg t needle

/-! ### Record instances and the reflection helpers of src/reflection.go -/

/-- A runtime field value, at the granularity the claims need: reflection
distinguishes signed-integer values (settable/readable through
`SetInt`/`Int`) from everything else. -/
inductive GoValue where
  | int (n : Int)
  | str (s : String)
  | other (descr : String)
deriving DecidableEq

/-- An argument handed to the facade: a struct value or a pointer to one
(`isPtr`), with its type and its field values in declaration order.
`getObjectValue`/`getObjectType` accept exactly these shapes (their error
branch fires only for non-struct arguments, which no claim exercises); a
dereferenced pointer is addressable, a plain struct value is not. -/
structure Arg where
  isPtr : Bool
  type : StructType
  values : List GoValue
deriving DecidableEq

/-- Result of an operation that may return an error or panic: Go panics
raised by the `reflect` package are kept distinct from returned errors. -/
inductive Outcome (α : Type) where
  | ok (a : α)
  | err (e : String)
  | panic (msg : String)
deriving DecidableEq

/-- The kinds `reflect.Value.SetInt` accepts without panicking. -/
def isSignedIntKind : Kind → Bool
  | Kind.int => true
  | Kind.int8 => true
  | Kind.int16 => true
  | Kind.int32 => true
  | Kind.int64 => true
  | _ => false

/-- `reflect.Value.FieldByName("ID")` at the type level: index and field of
the first field named `"ID"`, or `none` (an invalid `reflect.Value`). -/
def findID (t : StructType) : Option (Nat × StructField) :=
  t.fields.enum.find? (fun p => p.2.name == "ID")

/-- `setIDValue` (src/reflection.go): sets the ID field of the argument.
A missing ID field (`IsValid() == false`) and a non-addressable argument
(`CanSet() == false`) both return the same error; otherwise
`idField.SetInt(value)` runs, which per the `reflect` contract panics when
the field's kind is not a signed-integer kind. -/
def setIDValue (arg : Arg) (value : Int) : Outcome Arg :=
  match findID arg.type with
  | none => Outcome.err "could not set the ID field after inserting the object"
  | some (i, fid) =>
    if arg.isPtr = false then
      Outcome.err "could not set the ID field after inserting the object"
    else if isSignedIntKind fid.kind then
      Outcome.ok { arg with values := arg.values.set i (GoValue.int value) }
    else
      Outcome.panic ("reflect: call of reflect.Value.SetInt on " ++
        kindName fid.kind ++ " Value")

/-- `getIDValue` (src/reflection.go): reads the ID field.  Only
`IsValid()` is checked (with the same copy-pasted error message as
`setIDValue`); `idField.Int()` panics when the value is not of a
signed-integer kind. -/
def getIDValue (arg : Arg) : Outcome Int :=
  match findID arg.type with
  | none => Outcome.err "could not set the ID field after inserting the object"
  | some (i, _) =>
    match arg.values.get? i with
    | some (GoValue.int v) => Outcome.ok v
    | _ => Outcome.panic "reflect: call of reflect.Value.Int on non-int Value"

/-- `buildStatementValues` (src/sql.go): the values of the non-identity
fields in declaration order.  (The `getObjectValue` error branch concerns
non-struct arguments only, outside the range of `Arg`.) -/
def buildStatementValues (arg : Arg) : Except String (List GoValue) :=
  Except.ok (((arg.type.fields.zip arg.values).filter
    (fun p => p.1.name != "ID")).map (fun p => p.2))

/-- `Database.Insert` (src/reflection.go).  `queryRowScan` performs the
`QueryRow(...).Scan(&lastID)` round trip, returning the new row id.  The
translation preserves the source bug verbatim: the result of
`setIDValue(arg, lastID)` is discarded (the `err` checked on the next line
is the stale, already-nil error of the preceding `Scan`), so a `setIDValue`
failure is swallowed and `Insert` still reports success; when `setIDValue`
succeeds the mutation does land in the pointed-to struct. -/
def Insert (queryRowScan : String → List GoValue → Except String Int)
    (arg : Arg) : Outcome Arg :=
  let statement := buildInsertStatement arg.type
  match buildStatementValues arg with
  | Except.error e => Outcome.err ("could not insert object: " ++ e)
  | Except.ok values =>
    match queryRowScan statement values with
    | Except.error e =>
      Outcome.err ("could not insert object of type " ++ arg.type.name ++ ": " ++ e)
    | Except.ok lastID =>
      match setIDValue arg lastID with
      | Outcome.ok arg2 => Outcome.ok arg2
      | Outcome.err _ => Outcome.ok arg
      | Outcome.panic m => Outcome.panic m

/-- `Database.UpdateOne` (src/reflection.go).  `exec` performs the
`Conn.Exec` round trip and returns the driver's affected-row count.  The
statement reserves placeholder `$1` for the identity value
(`buildUpdateStatement(argt, "where id = $1", 2)`), the identity value is
prepended to the statement values, and an affected-row count other than 1
is reported as an error. -/
def UpdateOne (exec : String → List GoValue → Except String Int)
    (arg : Arg) : Outcome Unit :=
  let statement := (buildUpdateStatement arg.type "where id = $1" 2).1
  match buildStatementValues arg with
  | Except.error e => Outcome.err ("could not update object: " ++ e)
  | Except.ok values =>
    match getIDValue arg with
    | Outcome.err e =>
      Outcome.err ("could not update object of type " ++ arg.type.name ++ ": " ++ e)
    | Outcome.panic m => Outcome.panic m
    | Outcome.ok idVal =>
      match exec statement (GoValue.int idVal :: values) with
      | Except.error e => Outcome.err ("could not update object: " ++ e)
      | Except.ok rows =>
        if rows ≠ 1 then
          Outcome.err "incorrect number of rows affected after updating the object"
        else Outcome.ok ()

/-- The record type of the repository's own test suite:
`TestItem{ID int64 pgsql:"primary key"; StringColumn string pglen:"25";
IntColumn int; TimeColumn time.Time; BLOBColumn []byte}`. -/
def testItemType : StructType :=
  { name := "TestItem"
    fields := [
      { name := "ID", kind := Kind.int64, pgsqlTag := "primary key", pglenTag := "" },
      { name := "StringColumn", kind := Kind.str, pgsqlTag := "", pglenTag := "25" },
      { name := "IntColumn", kind := Kind.int, pgsqlTag := "", pglenTag := "" },
      { name := "TimeColumn", kind := Kind.struct_ "time" "Time", pgsqlTag := "", pglenTag := "" },
      { name := "BLOBColumn", kind := Kind.slice Kind.uint8, pgsqlTag := "", pglenTag := "" } ] }

/-! ### Helper lemmas -/

theorem joinSep_cons_of_ne_nil (sep a : String) (l : List String) (h : l ≠ []) :
    joinSep sep (a :: l) = a ++ sep ++ joinSep sep l := by
  cases l with
  | nil => exact absurd rfl h
  | cons b t => rfl

theorem nonID_eq_nil_of (l : List StructField) (h : hasNonID l = false) :
    nonID l = [] := by
  induction l with
  | nil => rfl
  | cons f rest ih =>
    rw [hasNonID, Bool.or_eq_false_iff] at h
    have hf : f.name = "ID" := by simpa using h.1
    simp [nonID, hf, ih h.2]

theorem nonID_ne_nil_of (l : List StructField) (h : hasNonID l = true) :
    nonID l ≠ [] := by
  induction l with
  | nil => simp [hasNonID] at h
  | cons f rest ih =>
    by_cases hf : f.name = "ID"
    · rw [hasNonID, Bool.or_eq_true] at h
      have hr : hasNonID rest = true := by
        rcases h with h1 | h2
        · simp [hf] at h1
        · exact h2
      simpa [nonID, hf] using ih hr
    · simp [nonID, hf]

theorem lastIsID_of_all_id (l : List StructField) (hne : l ≠ [])
    (h : hasNonID l = false) : lastIsID l = true := by
  induction l with
  | nil => exact absurd rfl hne
  | cons f rest ih =>
    cases rest with
    | nil =>
      rw [hasNonID, Bool.or_eq_false_iff] at h
      have hf : f.name = "ID" := by simpa using h.1
      simp [lastIsID, hf]
    | cons g t =>
      rw [hasNonID, Bool.or_eq_false_iff] at h
      exact ih (by simp) h.2

theorem placeholdersFrom_ne_nil (k : Int) (n : Nat) (h : n ≠ 0) :
    placeholdersFrom k n ≠ [] := by
  cases n with
  | zero => exact absurd rfl h
  | succ m => simp [placeholdersFrom]

theorem hasNonID_cons_id (f : StructField) (rest : List StructField)
    (hf : f.name = "ID") : hasNonID (f :: rest) = hasNonID rest := by
  simp [hasNonID, hf]

theorem trailingComma_cons (f : StructField) (g : StructField)
    (t : List StructField) (h : hasNonID (g :: t) = hasNonID (f :: g :: t)) :
    trailingComma (f :: g :: t) = trailingComma (g :: t) := by
  rw [trailingComma, trailingComma, lastIsID, ← h]

/-- Characterization of the insert-statement loop: the produced column list
and placeholder list are the clean comma-separated lists of the spec, each
followed by the stray trailing comma exactly when the last declared field
is named `"ID"` and a non-identity field exists. -/
theorem insertAux_eq (fields : List StructField) : ∀ k : Int,
    insertAux fields k =
      (insertColsSpec fields ++ trailingComma fields,
       insertValsSpec k fields ++ trailingComma fields) := by
  induction fields with
  | nil => intro k; rfl
  | cons f rest ih =>
    intro k
    by_cases hf : f.name = "ID"
    · rw [show insertAux (f :: rest) k = insertAux rest k from by simp [insertAux, hf]]
      cases rest with
      | nil =>
        simp [insertAux, insertColsSpec, insertColsList, nonID, hf, insertValsSpec,
          trailingComma, lastIsID, hasNonID, joinSep, placeholdersFrom]
      | cons g t =>
        rw [ih k]
        have hcols : insertColsSpec (f :: g :: t) = insertColsSpec (g :: t) := by
          simp [insertColsSpec, insertColsList, nonID, hf]
        have hvals : insertValsSpec k (f :: g :: t) = insertValsSpec k (g :: t) := by
          simp [insertValsSpec, nonID, hf]
        rw [hcols, hvals, trailingComma_cons f g t (hasNonID_cons_id f (g :: t) hf).symm]
    · have hne : (f.name != "ID") = true := by simp [hf]
      cases rest with
      | nil =>
        simp [insertAux, hf, insertColsSpec, insertColsList, nonID, insertValsSpec,
          trailingComma, lastIsID, hasNonID, hne, joinSep, placeholdersFrom]
      | cons g t =>
        have hsplit : insertAux (f :: g :: t) k =
            (goToLower f.name ++ "," ++ (insertAux (g :: t) (k + 1)).1,
             "$" ++ toString k ++ "," ++ (insertAux (g :: t) (k + 1)).2) := by
          simp [insertAux, hf]
        rw [hsplit, ih (k + 1)]
        have hnonid : nonID (f :: g :: t) = f :: nonID (g :: t) := by
          simp [nonID, hf]
        by_cases hr : hasNonID (g :: t) = true
        · have htail : nonID (g :: t) ≠ [] := nonID_ne_nil_of _ hr
          have hcols : insertColsSpec (f :: g :: t) =
              goToLower f.name ++ "," ++ insertColsSpec (g :: t) := by
            rw [insertColsSpec, insertColsList, hnonid, List.map_cons,
              joinSep_cons_of_ne_nil _ _ _ (by simpa [insertColsList, List.map_eq_nil_iff] using htail)]
            rfl
          have hvals : insertValsSpec k (f :: g :: t) =
              "$" ++ toString k ++ "," ++ insertValsSpec (k + 1) (g :: t) := by
            rw [insertValsSpec, hnonid, List.length_cons, placeholdersFrom,
              joinSep_cons_of_ne_nil _ _ _
                (placeholdersFrom_ne_nil (k + 1) (nonID (g :: t)).length
                  (by simpa [List.length_eq_zero] using htail))]
            rfl
          have hall : hasNonID (f :: g :: t) = true := by
            show ((f.name != "ID") || hasNonID (g :: t)) = true
            rw [hne, hr]
            rfl
          have htc : trailingComma (f :: g :: t) = trailingComma (g :: t) := by
            apply trailingComma_cons
            rw [hr, hall]
          rw [hcols, hvals, htc]
          simp [String.append_assoc]
        · have hr' : hasNonID (g :: t) = false := by simpa using hr
          have htail : nonID (g :: t) = [] := nonID_eq_nil_of _ hr'
          have hlast : lastIsID (g :: t) = true := lastIsID_of_all_id _ (by simp) hr'
          have hcols : insertColsSpec (f :: g :: t) = goToLower f.name := by
            rw [insertColsSpec, insertColsList, hnonid, htail]
            rfl
          have hvals : insertValsSpec k (f :: g :: t) = "$" ++ toString k := by
            rw [insertValsSpec, hnonid, htail]
            rfl
          have hcols0 : insertColsSpec (g :: t) = "" := by
            rw [insertColsSpec, insertColsList, htail]
            rfl
          have hvals0 : insertValsSpec (k + 1) (g :: t) = "" := by
            rw [insertValsSpec, htail]
            rfl
          have htc0 : trailingComma (g :: t) = "" := by
            simp [trailingComma, hr']
          have htc1 : trailingComma (f :: g :: t) = "," := by
            simp [trailingComma, lastIsID, hlast, hasNonID, hne]
          rw [hcols, hvals, hcols0, hvals0, htc0, htc1]
          simp [String.append_empty]

theorem setClauses_ne_nil (l : List StructField) (k : Int) (h : l ≠ []) :
    setClauses l k ≠ [] := by
  cases l with
  | nil => exact absurd rfl h
  | cons f t => simp [setClauses]

/-- Characterization of the update-statement loop: the produced SET list is
the clean comma-separated list of `name = $index` clauses (raw field names,
indices counting up from the start index over the non-identity fields in
declaration order) followed by the stray trailing comma exactly when the
last declared field is named `"ID"` and a non-identity field exists; the
returned next index is the start index plus the number of non-identity
fields. -/
theorem updateSetAux_eq (fields : List StructField) : ∀ k : Int,
    updateSetAux fields k =
      (updateSetSpec fields k ++ trailingComma fields,
       k + ((nonID fields).length : Int)) := by
  induction fields with
  | nil => intro k; simp [updateSetAux, updateSetSpec, nonID, setClauses, joinSep, trailingComma, lastIsID]
  | cons f rest ih =>
    intro k
    by_cases hf : f.name = "ID"
    · rw [show updateSetAux (f :: rest) k = updateSetAux rest k from by simp [updateSetAux, hf]]
      cases rest with
      | nil =>
        simp [updateSetAux, updateSetSpec, nonID, hf, setClauses, joinSep,
          trailingComma, lastIsID, hasNonID]
      | cons g t =>
        rw [ih k]
        have hspec : updateSetSpec (f :: g :: t) k = updateSetSpec (g :: t) k := by
          simp [updateSetSpec, nonID, hf]
        have hlen : nonID (f :: g :: t) = nonID (g :: t) := by simp [nonID, hf]
        rw [hspec, hlen, trailingComma_cons f g t (hasNonID_cons_id f (g :: t) hf).symm]
    · have hne : (f.name != "ID") = true := by simp [hf]
      cases rest with
      | nil =>
        simp [updateSetAux, hf, updateSetSpec, nonID, setClauses, joinSep,
          trailingComma, lastIsID, hasNonID, hne]
      | cons g t =>
        have hsplit : updateSetAux (f :: g :: t) k =
            (f.name ++ " = $" ++ toString k ++ "," ++ (updateSetAux (g :: t) (k + 1)).1,
             (updateSetAux (g :: t) (k + 1)).2) := by
          simp [updateSetAux, hf]
        rw [hsplit, ih (k + 1)]
        have hnonid : nonID (f :: g :: t) = f :: nonID (g :: t) := by
          simp [nonID, hf]
        have hidx : k + 1 + ((nonID (g :: t)).length : Int) =
            k + ((nonID (f :: g :: t)).length : Int) := by
          rw [hnonid, List.length_cons]
          push_cast
          ring
        by_cases hr : hasNonID (g :: t) = true
        · have htail : nonID (g :: t) ≠ [] := nonID_ne_nil_of _ hr
          have hspec : updateSetSpec (f :: g :: t) k =
              f.name ++ " = $" ++ toString k ++ "," ++ updateSetSpec (g :: t) (k + 1) := by
            rw [updateSetSpec, hnonid, setClauses,
              joinSep_cons_of_ne_nil _ _ _ (setClauses_ne_nil _ _ htail)]
            rfl
          have hall : hasNonID (f :: g :: t) = true := by
            show ((f.name != "ID") || hasNonID (g :: t)) = true
            rw [hne, hr]
            rfl
          have htc : trailingComma (f :: g :: t) = trailingComma (g :: t) := by
            apply trailingComma_cons
            rw [hr, hall]
          rw [hspec, htc, hidx]
          simp [String.append_assoc]
        · have hr' : hasNonID (g :: t) = false := by simpa using hr
          have htail : nonID (g :: t) = [] := nonID_eq_nil_of _ hr'
          have hlast : lastIsID (g :: t) = true := lastIsID_of_all_id _ (by simp) hr'
          have hspec : updateSetSpec (f :: g :: t) k = f.name ++ " = $" ++ toString k := by
            rw [updateSetSpec, hnonid, htail]
            rfl
          have hspec0 : updateSetSpec (g :: t) (k + 1) = "" := by
            rw [updateSetSpec, htail]
            rfl
          have htc0 : trailingComma (g :: t) = "" := by
            simp [trailingComma, hr']
          have htc1 : trailingComma (f :: g :: t) = "," := by
            simp [trailingComma, lastIsID, hlast, hasNonID, hne]
          rw [hspec, hspec0, htc0, htc1, hidx]
          simp [String.append_empty]

theorem varchar_head (s : String) : ("varchar(" ++ s ++ ")").data.head? = some 'v' := by
  rw [String.append_assoc, String.data_append]
  rfl

theorem varchar_ne_bigserial (s : String) : ("varchar(" ++ s ++ ")") ≠ "bigserial" := by
  intro h
  have h1 := varchar_head s
  rw [h] at h1
  exact absurd h1 (by decide)

/-- `mapColumnType` never yields the identity column type: its possible
successful results are `int`, `bigint`, `varchar(N)`, `timestamp` and
`bytea`. -/
theorem mapColumnType_ne_id (f : StructField) (ty : String)
    (h : mapColumnType f = Except.ok ty) : ty ≠ idColumnType := by
  rw [idColumnType]
  cases hk : f.kind with
  | int =>
    rw [mapColumnType, hk] at h
    cases h
    decide
  | int64 =>
    rw [mapColumnType, hk] at h
    cases h
    decide
  | str =>
    rw [mapColumnType, hk] at h
    cases hlen : getLengthTag f with
    | error e => rw [hlen] at h; cases h
    | ok n =>
      rw [hlen] at h
      cases h
      exact varchar_ne_bigserial (toString n)
  | struct_ p n =>
    rw [mapColumnType, hk] at h
    have h2 : (if p ++ "." ++ n = "time.Time" then (Except.ok "timestamp" : Except String String)
        else Except.error ("unsupported struct type - " ++ (p ++ "." ++ n))) = Except.ok ty := h
    by_cases ht : p ++ "." ++ n = "time.Time"
    · rw [if_pos ht] at h2
      cases h2
      decide
    · rw [if_neg ht] at h2
      cases h2
  | slice e =>
    rw [mapColumnType, hk] at h
    cases e <;> cases h
    decide
  | int8 => rw [mapColumnType, hk] at h; cases h
  | int16 => rw [mapColumnType, hk] at h; cases h
  | int32 => rw [mapColumnType, hk] at h; cases h
  | uint8 => rw [mapColumnType, hk] at h; cases h
  | other s => rw [mapColumnType, hk] at h; cases h

/-! ### Claims -/

/-- Claim C1, counterexample.  The claim states that `bigserial` together
with a primary-key constraint is assigned exactly to fields named,
case-sensitively, `"ID"`.  Both parts fail on the code: a field named
`"Id"` (not `"ID"`) of kind `bool` also receives `bigserial` (the builder
compares the lower-cased name against `"id"`), and a field named `"ID"`
with no `pgsql` tag receives no primary-key constraint at all (the
constraint text comes only from the tag, appended verbatim). -/
theorem c1_counterexample :
    buildCreateStatement { name := "T", fields := [{ name := "Id", kind := Kind.other "bool", pgsqlTag := "", pglenTag := "" }] } =
      Except.ok "create table ts (id bigserial );" ∧
    "Id" ≠ "ID" ∧
    buildCreateStatement { name := "T", fields := [{ name := "ID", kind := Kind.int64, pgsqlTag := "", pglenTag := "" }] } =
      Except.ok "create table ts (id bigserial );" ∧
    hasSeg "create table ts (id bigserial );".data "primary key".data = false := by
  exact ⟨rfl, by decide, rfl, by decide⟩

/-- Claim C1, amended.  The create-statement builder assigns the
auto-increment identity column type `bigserial` to a column exactly when
the lower-cased field name equals `"id"` (a case-insensitive match, not a
case-sensitive match against `"ID"`); for such a field the assignment is
unconditional in the field's declared value type and tags.  The builder
itself attaches no primary-key constraint: the constraint text of every
column is the field's `pgsql` tag, appended verbatim. -/
theorem c1_amended (f : StructField) :
    (goToLower f.name = "id" →
      createColumnClause f =
        Except.ok (goToLower f.name ++ " " ++ idColumnType ++ " " ++ f.pgsqlTag)) ∧
    (∀ ty, createColumnType f = Except.ok ty → (ty = idColumnType ↔ goToLower f.name = "id")) := by
  constructor
  · intro h
    rw [createColumnClause, createColumnType, if_pos h]
  · intro ty hty
    by_cases h : goToLower f.name = "id"
    · rw [createColumnType, if_pos h] at hty
      cases hty
      exact ⟨fun _ => h, fun _ => rfl⟩
    · rw [createColumnType, if_neg h] at hty
      exact ⟨fun hc => absurd hc (mapColumnType_ne_id f ty hty), fun hc => absurd hc h⟩

/-- Witness for C1: the field `Id bool` (name not equal to `"ID"`, kind not
even mappable) still receives the `bigserial` identity clause. -/
theorem c1_amended_witness :
    goToLower "Id" = "id" ∧
    createColumnClause { name := "Id", kind := Kind.other "bool", pgsqlTag := "", pglenTag := "" } =
      Except.ok "id bigserial " :=
  ⟨by decide, (c1_amended { name := "Id", kind := Kind.other "bool", pgsqlTag := "", pglenTag := "" }).1 (by decide)⟩

/-- Claim C3, counterexample.  The claim states the SET list uses the
derived column names (the lower-cased field names).  The code formats the
raw `field.Name` into the SET list: for a struct with fields
`ID int64, Name string` and start index 1 the builder yields
`Name = $1`, not `name = $1`. -/
theorem c3_counterexample :
    buildUpdateStatement { name := "T", fields := [{ name := "ID", kind := Kind.int64, pgsqlTag := "primary key", pglenTag := "" }, { name := "Name", kind := Kind.str, pgsqlTag := "", pglenTag := "25" }] } "" 1 =
      ("update ts set Name = $1 ;", 2) ∧
    buildUpdateStatement { name := "T", fields := [{ name := "ID", kind := Kind.int64, pgsqlTag := "primary key", pglenTag := "" }, { name := "Name", kind := Kind.str, pgsqlTag := "", pglenTag := "25" }] } "" 1 ≠
      ("update ts set name = $1 ;", 2) := by
  exact ⟨rfl, by decide⟩

/-- Claim C3, amended.  For every struct type whose last declared field is
not the skipped-but-comma-producing case (i.e. except when the last field
is named `"ID"` while other fields exist), every clause string and every
start index k ≥ 1: the update builder emits SET clauses for the
non-identity fields in declaration order using the raw declared field
names (not lower-cased), with placeholders $k, $k+1, … in that order, and
returns k plus the number of non-identity fields as the next free index. -/
theorem c3_amended (argt : StructType) (clauses : String) (k : Int)
    (hk : 1 ≤ k)
    (htc : (lastIsID argt.fields && hasNonID argt.fields) = false) :
    buildUpdateStatement argt clauses k =
      ("update " ++ BuildTableName argt ++ " set " ++ updateSetSpec argt.fields k ++
        " " ++ clauses ++ ";",
       k + ((nonID argt.fields).length : Int)) := by
  have _ := hk
  rw [buildUpdateStatement, updateSetAux_eq argt.fields k]
  rw [trailingComma, htc, if_neg (by simp), String.append_empty]

/-- Witness for C3: the repository's own `TestItem` type with the exact
call `UpdateOne` makes (`clauses = "where id = $1"`, start index 2). -/
theorem c3_amended_witness :
    (1 : Int) ≤ 2 ∧
    (lastIsID testItemType.fields && hasNonID testItemType.fields) = false ∧
    buildUpdateStatement testItemType "where id = $1" 2 =
      ("update " ++ BuildTableName testItemType ++ " set " ++
        updateSetSpec testItemType.fields 2 ++ " " ++ "where id = $1" ++ ";",
       2 + ((nonID testItemType.fields).length : Int)) :=
  ⟨by decide, by decide, c3_amended testItemType "where id = $1" 2 (by decide) (by decide)⟩

/-- Claim C4, counterexample.  The claim states the length-tag value must
be a positive integer, with zero and negative values rejected as
InvalidLengthTag.  The code performs no positivity check: `pglen:"0"` and
`pglen:"-5"` are accepted and produce `varchar(0)` and `varchar(-5)`. -/
theorem c4_counterexample :
    mapColumnType { name := "S", kind := Kind.str, pgsqlTag := "", pglenTag := "0" } =
      Except.ok "varchar(0)" ∧
    mapColumnType { name := "S", kind := Kind.str, pgsqlTag := "", pglenTag := "-5" } =
      Except.ok "varchar(-5)" := by
  exact ⟨rfl, rfl⟩

/-- Claim C4, amended.  For every field of string kind: an absent (empty)
`pglen` tag fails with the missing-length-tag error; a tag that parses as
an integer N — any integer, including zero and negative values — yields
`varchar(N)`; a nonempty tag that does not parse as an integer fails with
the invalid-length-tag error. -/
theorem c4_amended (f : StructField) (hk : f.kind = Kind.str) :
    (f.pglenTag = "" →
      mapColumnType f = Except.error ("len tag not present for field " ++ f.name)) ∧
    (∀ n : Int, goAtoi f.pglenTag = some n →
      mapColumnType f = Except.ok ("varchar(" ++ toString n ++ ")")) ∧
    (f.pglenTag ≠ "" → goAtoi f.pglenTag = none →
      mapColumnType f = Except.error ("len tag of field " ++ f.name ++ " cannot be converted to int")) := by
  have hempty : f.pglenTag = "" →
      getLengthTag f = Except.error ("len tag not present for field " ++ f.name) := by
    intro he
    rw [getLengthTag]
    simp [he]
  have hparse : ∀ n : Int, goAtoi f.pglenTag = some n → getLengthTag f = Except.ok n := by
    intro n hn
    have hne : f.pglenTag ≠ "" := by
      intro he
      rw [he] at hn
      cases hn
    rw [getLengthTag]
    simp [hne, hn]
  have hbad : f.pglenTag ≠ "" → goAtoi f.pglenTag = none →
      getLengthTag f = Except.error ("len tag of field " ++ f.name ++ " cannot be converted to int") := by
    intro hne hnone
    rw [getLengthTag]
    simp [hne, hnone]
  refine ⟨fun he => ?_, fun n hn => ?_, fun hne hnone => ?_⟩
  · rw [mapColumnType, hk, hempty he]
  · rw [mapColumnType, hk, hparse n hn]
  · rw [mapColumnType, hk, hbad hne hnone]

/-- Witness for C4: the repository's own `StringColumn string pglen:"25"`
maps to `varchar(25)`, and a field with the unparsable tag `pglen:"25x"`
fails with the invalid-length-tag error. -/
theorem c4_amended_witness :
    ({ name := "StringColumn", kind := Kind.str, pgsqlTag := "", pglenTag := "25" } : StructField).kind = Kind.str ∧
    goAtoi "25" = some 25 ∧
    mapColumnType { name := "StringColumn", kind := Kind.str, pgsqlTag := "", pglenTag := "25" } =
      Except.ok ("varchar(" ++ toString (25 : Int) ++ ")") ∧
    mapColumnType { name := "StringColumn", kind := Kind.str, pgsqlTag := "", pglenTag := "25x" } =
      Except.error ("len tag of field " ++ "StringColumn" ++ " cannot be converted to int") :=
  ⟨rfl, by decide,
   (c4_amended { name := "StringColumn", kind := Kind.str, pgsqlTag := "", pglenTag := "25" } rfl).2.1 25 (by decide),
   (c4_amended { name := "StringColumn", kind := Kind.str, pgsqlTag := "", pglenTag := "25x" } rfl).2.2 (by decide) (by decide)⟩

/-- The type description appearing in the error message `mapColumnType`
produces for an unmappable field: the full package-qualified type name for
a struct kind, the element kind for a slice kind, the kind itself
otherwise. -/
def unsupportedTypeDesc : Kind → String
  | Kind.struct_ p n => p ++ "." ++ n
  | Kind.slice e => kindName e
  | k => kindName k

/-- The kinds `mapColumnType` maps successfully: machine-word integer,
64-bit integer, string (given a usable tag), `time.Time`, byte slice. -/
def supportedKind : Kind → Bool
  | Kind.int => true
  | Kind.int64 => true
  | Kind.str => true
  | Kind.struct_ p n => if p ++ "." ++ n = "time.Time" then true else false
  | Kind.slice e => if e = Kind.uint8 then true else false
  | _ => false

/-- Claim C5, counterexample.  The claim states the UnsupportedFieldType
error message names both the offending field and its type.  For the field
`Flag bool` the code produces `unsupported field kind - bool`, which names
the kind but nowhere contains the field name `Flag`. -/
theorem c5_counterexample :
    mapColumnType { name := "Flag", kind := Kind.other "bool", pgsqlTag := "", pglenTag := "" } =
      Except.error "unsupported field kind - bool" ∧
    hasSeg "unsupported field kind - bool".data "Flag".data = false := by
  exact ⟨rfl, by decide⟩

/-- Claim C5, amended.  For every field whose value type is not one of the
supported kinds, `mapColumnType` fails with an error whose message names
the offending type (the message is some fixed text followed by the type
description) — but not the offending field. -/
theorem c5_amended (f : StructField) (h : supportedKind f.kind = false) :
    ∃ pre : String, pre ≠ "" ∧
      mapColumnType f = Except.error (pre ++ unsupportedTypeDesc f.kind) := by
  cases hk : f.kind with
  | int => rw [hk] at h; exact absurd h (by decide)
  | int64 => rw [hk] at h; exact absurd h (by decide)
  | str => rw [hk] at h; exact absurd h (by decide)
  | int8 =>
    exact ⟨"unsupported field kind - ", by decide, by rw [mapColumnType, hk]; rfl⟩
  | int16 =>
    exact ⟨"unsupported field kind - ", by decide, by rw [mapColumnType, hk]; rfl⟩
  | int32 =>
    exact ⟨"unsupported field kind - ", by decide, by rw [mapColumnType, hk]; rfl⟩
  | uint8 =>
    exact ⟨"unsupported field kind - ", by decide, by rw [mapColumnType, hk]; rfl⟩
  | other s =>
    exact ⟨"unsupported field kind - ", by decide, by rw [mapColumnType, hk]; rfl⟩
  | struct_ p n =>
    rw [hk, supportedKind] at h
    by_cases ht : p ++ "." ++ n = "time.Time"
    · rw [if_pos ht] at h
      cases h
    · refine ⟨"unsupported struct type - ", by decide, ?_⟩
      rw [mapColumnType, hk, unsupportedTypeDesc]
      have h2 : (if p ++ "." ++ n = "time.Time" then (Except.ok "timestamp" : Except String String)
          else Except.error ("unsupported struct type - " ++ (p ++ "." ++ n))) =
          Except.error ("unsupported struct type - " ++ (p ++ "." ++ n)) := by
        rw [if_neg ht]
      exact h2
  | slice e =>
    rw [hk, supportedKind] at h
    cases e with
    | uint8 => exact absurd h (by decide)
    | int => exact ⟨"unsupported slice kind - ", by decide, by rw [mapColumnType, hk]; rfl⟩
    | int8 => exact ⟨"unsupported slice kind - ", by decide, by rw [mapColumnType, hk]; rfl⟩
    | int16 => exact ⟨"unsupported slice kind - ", by decide, by rw [mapColumnType, hk]; rfl⟩
    | int32 => exact ⟨"unsupported slice kind - ", by decide, by rw [mapColumnType, hk]; rfl⟩
    | int64 => exact ⟨"unsupported slice kind - ", by decide, by rw [mapColumnType, hk]; rfl⟩
    | str => exact ⟨"unsupported slice kind - ", by decide, by rw [mapColumnType, hk]; rfl⟩
    | struct_ p n => exact ⟨"unsupported slice kind - ", by decide, by rw [mapColumnType, hk]; rfl⟩
    | slice e2 => exact ⟨"unsupported slice kind - ", by decide, by rw [mapColumnType, hk]; rfl⟩
    | other s => exact ⟨"unsupported slice kind - ", by decide, by rw [mapColumnType, hk]; rfl⟩

/-- Witness for C5: the unmappable field `Flag bool`. -/
theorem c5_amended_witness :
    supportedKind (Kind.other "bool") = false ∧
    ∃ pre : String, pre ≠ "" ∧
      mapColumnType { name := "Flag", kind := Kind.other "bool", pgsqlTag := "", pglenTag := "" } =
        Except.error (pre ++ unsupportedTypeDesc (Kind.other "bool")) :=
  ⟨by decide, c5_amended { name := "Flag", kind := Kind.other "bool", pgsqlTag := "", pglenTag := "" } (by decide)⟩

/-- Claim C6, counterexample.  The claim's clean form fails when the field
named `"ID"` is the last declared field: for fields `A int, ID int64` the
builder emits a trailing comma in both the column list and the placeholder
list. -/
theorem c6_counterexample :
    buildInsertStatement { name := "T", fields := [{ name := "A", kind := Kind.int, pgsqlTag := "", pglenTag := "" }, { name := "ID", kind := Kind.int64, pgsqlTag := "", pglenTag := "" }] } =
      "insert into ts (a,) values ($1,) returning id;" ∧
    buildInsertStatement { name := "T", fields := [{ name := "A", kind := Kind.int, pgsqlTag := "", pglenTag := "" }, { name := "ID", kind := Kind.int64, pgsqlTag := "", pglenTag := "" }] } ≠
      "insert into ts (a) values ($1) returning id;" := by
  exact ⟨rfl, by decide⟩

/-- Claim C6, amended.  For every struct type — except when the field named
`"ID"` is the last declared field while other fields exist, in which case a
stray trailing comma is appended (see C9) — the insert builder produces
`insert into <table> (<cols>) values (<placeholders>) returning id;` where
the columns are exactly the lower-cased names of the non-identity fields
in declaration order and the placeholders are exactly $1 … $n in order,
with n the number of non-identity fields. -/
theorem c6_amended (argt : StructType)
    (htc : (lastIsID argt.fields && hasNonID argt.fields) = false) :
    buildInsertStatement argt =
      "insert into " ++ BuildTableName argt ++ " (" ++ insertColsSpec argt.fields ++
        ") values (" ++ insertValsSpec 1 argt.fields ++ ") returning id;" := by
  rw [buildInsertStatement, insertAux_eq argt.fields 1]
  rw [trailingComma, htc, if_neg (by simp), String.append_empty, String.append_empty]

/-- Witness for C6: the repository's own `TestItem` type. -/
theorem c6_amended_witness :
    (lastIsID testItemType.fields && hasNonID testItemType.fields) = false ∧
    buildInsertStatement testItemType =
      "insert into " ++ BuildTableName testItemType ++ " (" ++
        insertColsSpec testItemType.fields ++ ") values (" ++
        insertValsSpec 1 testItemType.fields ++ ") returning id;" :=
  ⟨by decide, c6_amended testItemType (by decide)⟩

/-- Claim C9, counterexample.  The claim asserts a trailing comma whenever
the field named `"ID"` is the last declared field.  For a struct whose
only field is `ID`, the field is last, yet the `continue` skips it before
the comma logic runs: the generated statement contains no comma at all. -/
theorem c9_counterexample :
    buildInsertStatement { name := "T", fields := [{ name := "ID", kind := Kind.int64, pgsqlTag := "", pglenTag := "" }] } =
      "insert into ts () values () returning id;" ∧
    "insert into ts () values () returning id;".data.contains ',' = false := by
  exact ⟨rfl, by decide⟩

/-- Claim C9, amended.  For every struct type, clause string and start
index: the insert builder's column and placeholder lists and the update
builder's SET list are the clean comma-separated lists followed by a stray
trailing comma (malformed SQL) exactly when the last declared field is
named `"ID"` and at least one non-`"ID"` field exists; in every other case
(including the struct whose only field is `ID`) no trailing comma is
emitted, and the update builder returns the start index plus the number of
non-identity fields. -/
theorem c9_amended (argt : StructType) (clauses : String) (k : Int) :
    buildInsertStatement argt =
      "insert into " ++ BuildTableName argt ++ " (" ++
        (insertColsSpec argt.fields ++ trailingComma argt.fields) ++ ") values (" ++
        (insertValsSpec 1 argt.fields ++ trailingComma argt.fields) ++ ") returning id;" ∧
    buildUpdateStatement argt clauses k =
      ("update " ++ BuildTableName argt ++ " set " ++
        (updateSetSpec argt.fields k ++ trailingComma argt.fields) ++ " " ++ clauses ++ ";",
       k + ((nonID argt.fields).length : Int)) := by
  constructor
  · rw [buildInsertStatement, insertAux_eq argt.fields 1]
  · rw [buildUpdateStatement, updateSetAux_eq argt.fields k]

/-- A `TestItem` instance as in the repository's test suite, passed either
as a pointer (`isPtr = true`, addressable) or as a plain struct value
(`isPtr = false`, not addressable). -/
def testItemArg (isPtr : Bool) : Arg :=
  { isPtr := isPtr
    type := testItemType
    values := [GoValue.int 0, GoValue.str "lashbits.tech", GoValue.int 1337,
      GoValue.other "time.Now", GoValue.other "bytes"] }

/-- Claim C2 (code bug), evaluated at the failing input.  The claim — and
the spec's "never silently swallowed" error policy — says a failure to
mutate the identity field is returned as an error.  In the source,
`Insert` drops the result of `setIDValue(arg, lastID)`: the `err` tested
on the following line is the stale, already-nil error of the preceding
`Scan`, so the dead check never fires.  Concretely, for a `TestItem`
passed by value (not addressable) with the driver round trip succeeding
with id 7: `setIDValue` itself fails, yet `Insert` reports success and
leaves the instance's `ID` at 0.  For the same instance passed by pointer,
the id is populated, confirming the claim's first half. -/
theorem c2_insert_swallows_setid_error :
    setIDValue (testItemArg false) 7 =
      Outcome.err "could not set the ID field after inserting the object" ∧
    Insert (fun _ _ => Except.ok 7) (testItemArg false) = Outcome.ok (testItemArg false) ∧
    Insert (fun _ _ => Except.ok 7) (testItemArg true) =
      Outcome.ok { testItemArg true with
        values := [GoValue.int 7, GoValue.str "lashbits.tech", GoValue.int 1337,
          GoValue.other "time.Now", GoValue.other "bytes"] } := by
  exact ⟨rfl, rfl, rfl⟩

/-- Claim C7.  Whenever the update round trip itself succeeds and reports
an affected-row count, `UpdateOne` returns the unexpected-row-count error
exactly when that count is not 1, and returns success when it is 1. -/
theorem c7_updateone_rowcount
    (exec : String → List GoValue → Except String Int) (arg : Arg)
    (i : Nat) (fid : StructField) (v : Int) (vals : List GoValue) (rows : Int)
    (hfind : findID arg.type = some (i, fid))
    (hval : arg.values.get? i = some (GoValue.int v))
    (hvals : buildStatementValues arg = Except.ok vals)
    (hexec : exec (buildUpdateStatement arg.type "where id = $1" 2).1
      (GoValue.int v :: vals) = Except.ok rows) :
    (UpdateOne exec arg =
      Outcome.err "incorrect number of rows affected after updating the object" ↔
      rows ≠ 1) ∧
    (rows = 1 → UpdateOne exec arg = Outcome.ok ()) := by
  have hid : getIDValue arg = Outcome.ok v := by
    simp only [getIDValue, hfind, hval]
  have hrun : UpdateOne exec arg =
      (if rows ≠ 1 then
        Outcome.err "incorrect number of rows affected after updating the object"
      else Outcome.ok ()) := by
    simp only [UpdateOne, hvals, hid, hexec]
  constructor
  · rw [hrun]
    by_cases hr : rows = 1
    · rw [if_neg (by simpa using hr)]
      simp [hr]
    · rw [if_pos hr]
      simp [hr]
  · intro hr
    rw [hrun, if_neg (by simpa using hr)]

/-- Witness for C7: a `TestItem` pointer with id 5 against a driver
reporting 2 affected rows yields the unexpected-row-count error. -/
theorem c7_updateone_rowcount_witness :
    findID testItemType = some (0, { name := "ID", kind := Kind.int64, pgsqlTag := "primary key", pglenTag := "" }) ∧
    UpdateOne (fun _ _ => Except.ok 2)
      { isPtr := true, type := testItemType,
        values := [GoValue.int 5, GoValue.str "x", GoValue.int 2,
          GoValue.other "t", GoValue.other "b"] } =
      Outcome.err "incorrect number of rows affected after updating the object" :=
  ⟨by decide,
   (c7_updateone_rowcount (fun _ _ => Except.ok 2)
      { isPtr := true, type := testItemType,
        values := [GoValue.int 5, GoValue.str "x", GoValue.int 2,
          GoValue.other "t", GoValue.other "b"] }
      0 { name := "ID", kind := Kind.int64, pgsqlTag := "primary key", pglenTag := "" }
      5 [GoValue.str "x", GoValue.int 2, GoValue.other "t", GoValue.other "b"] 2
      (by decide) rfl rfl rfl).1.mpr (by decide)⟩

/-- Claim C8.  The derived table name is exactly the lower-casing of the
type's bare name with a single trailing "s" appended, and it is a pure
function of the bare name alone: two types with the same bare name — even
with different fields — always derive the same table name. -/
theorem c8_table_name :
    (∀ t : StructType, BuildTableName t = goToLower t.name ++ "s") ∧
    (∀ t1 t2 : StructType, t1.name = t2.name → BuildTableName t1 = BuildTableName t2) := by
  constructor
  · intro t
    rfl
  · intro t1 t2 h
    rw [BuildTableName, BuildTableName, h]

/-- Witness for C8: `TestItem` derives `testitems`, and a second type with
the same bare name but no fields derives the same table name. -/
theorem c8_table_name_witness :
    BuildTableName testItemType = "testitems" ∧
    ({ name := "TestItem", fields := [] } : StructType).name = testItemType.name ∧
    BuildTableName { name := "TestItem", fields := [] } = BuildTableName testItemType :=
  ⟨by decide, rfl, c8_table_name.2 { name := "TestItem", fields := [] } testItemType rfl⟩

/-- Claim C10.  For every argument whose `ID` field exists and is settable
(pointer argument) but whose declared kind is not a signed-integer kind,
`setIDValue` does not return an error: the `reflect.Value.SetInt` call
panics instead. -/
theorem c10_setid_panics (arg : Arg) (value : Int) (i : Nat) (fid : StructField)
    (hfind : findID arg.type = some (i, fid))
    (hptr : arg.isPtr = true)
    (hkind : isSignedIntKind fid.kind = false) :
    setIDValue arg value =
      Outcome.panic ("reflect: call of reflect.Value.SetInt on " ++
        kindName fid.kind ++ " Value") ∧
    ∀ e : String, setIDValue arg value ≠ Outcome.err e := by
  have hset : setIDValue arg value =
      Outcome.panic ("reflect: call of reflect.Value.SetInt on " ++
        kindName fid.kind ++ " Value") := by
    simp [setIDValue, hfind, hptr, hkind]
  exact ⟨hset, fun e => by rw [hset]; intro hc; cases hc⟩

/-- Witness for C10: a pointer argument whose `ID` field is a string. -/
theorem c10_setid_panics_witness :
    findID { name := "T", fields := [{ name := "ID", kind := Kind.str, pgsqlTag := "", pglenTag := "" }] } =
      some (0, { name := "ID", kind := Kind.str, pgsqlTag := "", pglenTag := "" }) ∧
    setIDValue { isPtr := true, type := { name := "T", fields := [{ name := "ID", kind := Kind.str, pgsqlTag := "", pglenTag := "" }] }, values := [GoValue.str "x"] } 7 =
      Outcome.panic ("reflect: call of reflect.Value.SetInt on " ++
        kindName Kind.str ++ " Value") :=
  ⟨by decide,
   (c10_setid_panics
      { isPtr := true, type := { name := "T", fields := [{ name := "ID", kind := Kind.str, pgsqlTag := "", pglenTag := "" }] }, values := [GoValue.str "x"] }
      7 0 { name := "ID", kind := Kind.str, pgsqlTag := "", pglenTag := "" }
      (by decide) rfl (by decide)).1⟩

end Liteorm
